import Mathlib

/-!
Shallow embedding of the A-level Results dashboard (src/app.py).

The program prepares a tabular dataset (time-period formatting, start-year
extraction, percentage coercion and derived absolute counts) and serves two
query operations over the prepared rows:

* `update_table`   — the summary-table callback (filter, select indicator
  columns, group by start year, mean, transpose);
* `update_line_chart` — the time-series callback (filter, per-subject
  group-by-year sum of entry counts).

Rows are modelled as records; dataframe columns holding possibly-missing
numerics are `Option Rat`; the six grade-band columns are indexed by `Band`.
Python string operations that the preparation step uses (`split('_')`,
`int(...)`) are embedded as structurally recursive functions on `List Char`
so that everything evaluates inside the kernel.
-/

/-- The six cumulative grade bands A*, A*-A, A*-B, A*-C, A*-D, A*-E. -/
inductive Band where
  | astar
  | astarA
  | astarB
  | astarC
  | astarD
  | astarE
deriving DecidableEq, Repr

/-- The bands in the fixed source order (order of `percentage_columns`). -/
def bandList : List Band :=
  [Band.astar, Band.astarA, Band.astarB, Band.astarC, Band.astarD, Band.astarE]

/-- The percentage column name of each band, as listed in
`percentage_columns` in src/app.py lines 15-22. -/
def percName : Band → String
  | Band.astar => "perc_astar_grade_achieved"
  | Band.astarA => "perc_astar_a_grade_achieved"
  | Band.astarB => "perc_astar_b_grade_achieved"
  | Band.astarC => "perc_astar_c_grade_achieved"
  | Band.astarD => "perc_astar_d_grade_achieved"
  | Band.astarE => "perc_astar_e_grade_achieved"

/-- The literal list `percentage_columns` of src/app.py. -/
def percentage_columns : List String :=
  ["perc_astar_grade_achieved",
   "perc_astar_a_grade_achieved",
   "perc_astar_b_grade_achieved",
   "perc_astar_c_grade_achieved",
   "perc_astar_d_grade_achieved",
   "perc_astar_e_grade_achieved"]

/-- Python `s.split('_')` on the character list: accumulate the current
segment, cut at each underscore. -/
def splitUnderscoreAux : List Char → List Char → List (List Char)
  | [], acc => [acc.reverse]
  | c :: cs, acc =>
      if c = '_' then acc.reverse :: splitUnderscoreAux cs []
      else splitUnderscoreAux cs (c :: acc)

/-- Python `col.split('_')` as a list of strings. -/
def splitUnderscore (s : String) : List String :=
  (splitUnderscoreAux s.data []).map List.asString

/-- Python `col.split('_')[i]` (the source only uses in-range indices). -/
def splitPart (s : String) (i : Nat) : String :=
  (splitUnderscore s).getD i ""

/-- The derived absolute column name of src/app.py line 25:
`f"abs_{col.split('_')[1]}_{col.split('_')[2]}_grade_achieved"`. -/
def absName (col : String) : String :=
  "abs_" ++ splitPart col 1 ++ "_" ++ splitPart col 2 ++ "_grade_achieved"

/-- A raw dataframe cell for a percentage column: either a numeric value or
something non-numeric/missing (which `pd.to_numeric(..., errors='coerce')`
turns into a missing value). -/
inductive Cell where
  | num (q : Rat)
  | nonNumeric
deriving DecidableEq

/-- `pd.to_numeric(..., errors='coerce')` on one cell: numeric input is kept,
non-numeric input becomes missing, never raising. -/
def to_numeric : Cell → Option Rat
  | Cell.num q => some q
  | Cell.nonNumeric => none

/-- One decimal digit of a character, if it is a digit. -/
def digitOf (c : Char) : Option Nat :=
  if '0' ≤ c ∧ c ≤ '9' then some (c.toNat - '0'.toNat) else none

/-- Accumulate decimal digits; fails on the first non-digit. -/
def parseNatAux : List Char → Nat → Option Nat
  | [], acc => some acc
  | c :: cs, acc =>
      match digitOf c with
      | some d => parseNatAux cs (acc * 10 + d)
      | none => none

/-- Python `int(s)`: an optional sign followed by at least one digit;
anything else raises, embedded here as `none`. -/
def str_to_int (s : String) : Option Int :=
  match s.data with
  | [] => none
  | '-' :: cs =>
      if cs = [] then none else (parseNatAux cs 0).map (fun n => -(n : Int))
  | '+' :: cs =>
      if cs = [] then none else (parseNatAux cs 0).map (fun n => (n : Int))
  | cs => (parseNatAux cs 0).map (fun n => (n : Int))

/-- A raw row as read from the CSV, before the preparation step:
`time_period` already a string (`astype(str)`), the six percentage cells
still uncoerced. -/
structure RawRow where
  subject_name : String
  characteristic_value : String
  time_period : String
  entry_count : Nat
  percRaw : Band → Cell

/-- A prepared row, after src/app.py lines 10-26: formatted period,
integer start year, coerced percentages and derived absolute counts. -/
structure PrepRow where
  subject_name : String
  characteristic_value : String
  time_period : String
  formatted_time_period : String
  start_year : Int
  entry_count : Nat
  perc : Band → Option Rat
  abs : Band → Option Rat

/-- The preparation step of src/app.py lines 10-26 on one row:
`formatted_time_period = f"{x[:4]}/{x[4:]}"`,
`start_year = int(time_period[:4])` (failure of `astype(int)` is a startup
error, embedded as `none`), each percentage coerced with
`pd.to_numeric(..., errors='coerce')`, and each absolute column
`(perc / 100) * entry_count`. -/
def prepareRow (r : RawRow) : Option PrepRow :=
  match str_to_int (r.time_period.take 4) with
  | none => none
  | some sy =>
      some
        { subject_name := r.subject_name
          characteristic_value := r.characteristic_value
          time_period := r.time_period
          formatted_time_period := r.time_period.take 4 ++ "/" ++ r.time_period.drop 4
          start_year := sy
          entry_count := r.entry_count
          perc := fun b => to_numeric (r.percRaw b)
          abs := fun b =>
            (to_numeric (r.percRaw b)).map (fun p => p / 100 * (r.entry_count : Rat)) }

/-- An indicator column selectable by `update_table`: `entry_count`, a
percentage column, or a derived absolute column. -/
inductive Col where
  | entry
  | percCol (b : Band)
  | absCol (b : Band)
deriving DecidableEq

/-- The dataframe column name of an indicator column. -/
def colName : Col → String
  | Col.entry => "entry_count"
  | Col.percCol b => percName b
  | Col.absCol b => absName (percName b)

/-- The value of an indicator column in a prepared row (`entry_count` is
never missing; the others may be). -/
def colVal (r : PrepRow) : Col → Option Rat
  | Col.entry => some (r.entry_count : Rat)
  | Col.percCol b => r.perc b
  | Col.absCol b => r.abs b

/-- `all_columns = base_columns + selected_columns` of src/app.py
lines 125-132: `entry_count` plus the six percentage columns when the
indicator type is `'percentage'`, otherwise the six absolute columns. -/
def allColumns (indicator_type : String) : List Col :=
  Col.entry ::
    (if indicator_type = "percentage" then bandList.map Col.percCol
     else bandList.map Col.absCol)

/-- The shared filter of both callbacks (src/app.py lines 117-122 and
162-167): start year in the closed range, matching characteristic, and
subject among the selected subjects. -/
def filtered_df (rows : List PrepRow) (start_date end_date : Int)
    (selected_characteristic : String) (selected_subject : List String) :
    List PrepRow :=
  rows.filter fun r =>
    decide (start_date ≤ r.start_year ∧ r.start_year ≤ end_date ∧
      r.characteristic_value = selected_characteristic ∧
      r.subject_name ∈ selected_subject)

/-- Insert a year into a sorted duplicate-free list, keeping it sorted and
duplicate-free (how pandas `groupby` arranges its group keys). -/
def insertYear (y : Int) : List Int → List Int
  | [] => [y]
  | x :: xs =>
      if y < x then y :: x :: xs
      else if x < y then x :: insertYear y xs
      else x :: xs

/-- The sorted list of distinct group keys of pandas `groupby('start_year')`:
ascending, one entry per distinct year present. -/
def groupKeys (l : List Int) : List Int := l.foldr insertYear []

/-- Mean of a column over a group, pandas-style: missing values are ignored;
if every value is missing (or the group is empty) the mean is missing. -/
def meanOpt (l : List (Option Rat)) : Option Rat :=
  let present := l.filterMap id
  if present.length = 0 then none
  else some (present.sum / (present.length : Rat))

/-- One cell of the pivoted summary table: the mean of indicator column `c`
over the filtered rows of start year `y`. -/
def cellValue (f : List PrepRow) (c : Col) (y : Int) : Option Rat :=
  meanOpt ((f.filter fun r => decide (r.start_year = y)).map (fun r => colVal r c))

/-- The payload `update_table` returns: the column list (first `"Indicator"`,
then the years rendered as strings) and one record per indicator, carrying
the indicator name and its value for each year column in order. -/
structure SummaryTable where
  colNames : List String
  records : List (String × List (Option Rat))
deriving DecidableEq

/-- The summary-table callback `update_table` of src/app.py lines 115-144:
filter, select `entry_count` plus the six indicator columns, group by
`start_year`, mean, transpose; column names are strings. -/
def update_table (rows : List PrepRow) (start_date end_date : Int)
    (indicator_type selected_characteristic : String)
    (selected_subject : List String) : SummaryTable :=
  let f := filtered_df rows start_date end_date selected_characteristic selected_subject
  let years := groupKeys (f.map (fun r => r.start_year))
  let cols := allColumns indicator_type
  { colNames := "Indicator" :: years.map (fun y => toString y)
    records := cols.map (fun c => (colName c, years.map (fun y => cellValue f c y))) }

/-- The `selected_subjects` argument of `update_line_chart`: the hosting UI
may hand over a single string or a list of strings. -/
inductive SubjectsParam where
  | single (s : String)
  | multi (l : List String)

/-- The normalisation of src/app.py lines 158-159: a non-list value is
wrapped into a singleton list. -/
def normalizeSubjects : SubjectsParam → List String
  | SubjectsParam.single s => [s]
  | SubjectsParam.multi l => l

/-- One line-chart trace: x values (years), y values (summed entry counts),
and the series label. -/
structure Trace where
  x : List Int
  y : List Nat
  name : String
deriving DecidableEq

/-- The figure `update_line_chart` returns: the traces plus the layout
titles. -/
structure Figure where
  data : List Trace
  title : String
  xaxisTitle : String
  yaxisTitle : String
deriving DecidableEq

/-- `subject_df = filtered_df[filtered_df['subject_name'] == subject]` of
src/app.py line 172. -/
def subject_df (f : List PrepRow) (subject : String) : List PrepRow :=
  f.filter fun r => decide (r.subject_name = subject)

/-- The per-subject trace of src/app.py lines 171-181: restrict the filtered
rows to the subject, group by `start_year`, sum `entry_count`, and label the
series `f'{subject} ({selected_characteristic})'`. -/
def subjectTrace (f : List PrepRow) (selected_characteristic subject : String) :
    Trace :=
  let sdf := subject_df f subject
  let years := groupKeys (sdf.map (fun r => r.start_year))
  { x := years
    y := years.map (fun yr =>
      ((sdf.filter fun r => decide (r.start_year = yr)).map
        (fun r => r.entry_count)).sum)
    name := subject ++ " (" ++ selected_characteristic ++ ")" }

/-- The line-chart callback `update_line_chart` of src/app.py lines 156-192:
normalise the subjects to a list, filter, and build one trace per selected
subject, with the layout titles of lines 185-190. -/
def update_line_chart (rows : List PrepRow) (start_date end_date : Int)
    (selected_subjects : SubjectsParam) (selected_characteristic : String) :
    Figure :=
  let subjects := normalizeSubjects selected_subjects
  let f := filtered_df rows start_date end_date selected_characteristic subjects
  { data := subjects.map (fun subject => subjectTrace f selected_characteristic subject)
    title := "Entries Count Over Time for Selected Subjects (" ++
      selected_characteristic ++ ")"
    xaxisTitle := "Year"
    yaxisTitle := "Entry Count" }

/-! ### Concrete example data (the worked example of the specification) -/

/-- One prepared example row: subject Mathematics, characteristic
All Students, with the given period, start year, entry count, and the A*
percentage (the other five bands missing). -/
def mkExRow (tp : String) (sy : Int) (ec : Nat) (pa : Rat) : PrepRow :=
  { subject_name := "Mathematics"
    characteristic_value := "All Students"
    time_period := tp
    formatted_time_period := tp.take 4 ++ "/" ++ tp.drop 4
    start_year := sy
    entry_count := ec
    perc := fun b => match b with
      | Band.astar => some pa
      | _ => none
    abs := fun b => match b with
      | Band.astar => some (pa / 100 * (ec : Rat))
      | _ => none }

/-- The example dataset of the specification: Mathematics / All Students,
years 2019-2021, entry counts 100/120/110, A* percentages 10/12/11. -/
def exampleRows : List PrepRow :=
  [mkExRow "201920" 2019 100 10,
   mkExRow "202021" 2020 120 12,
   mkExRow "202122" 2021 110 11]

/-- A concrete raw row used to witness the preparation theorems. -/
def exRaw : RawRow :=
  { subject_name := "Mathematics"
    characteristic_value := "All Students"
    time_period := "202122"
    entry_count := 110
    percRaw := fun b => match b with
      | Band.astar => Cell.num 11
      | _ => Cell.nonNumeric }

/-- The prepared row `prepareRow` produces from `exRaw`. -/
def exPrep : PrepRow :=
  { subject_name := "Mathematics"
    characteristic_value := "All Students"
    time_period := "202122"
    formatted_time_period := "202122".take 4 ++ "/" ++ "202122".drop 4
    start_year := 2021
    entry_count := 110
    perc := fun b => to_numeric (exRaw.percRaw b)
    abs := fun b =>
      (to_numeric (exRaw.percRaw b)).map
        (fun p => p / 100 * ((110 : Nat) : Rat)) }

/-- The summary table of the specification's worked example:
`buildSummaryTable(2019, 2021, "percentage", "All Students", ["Mathematics"])`
over the example dataset. -/
def exampleTable : SummaryTable :=
  update_table exampleRows 2019 2021 "percentage" "All Students" ["Mathematics"]

example : splitUnderscore "perc_astar_grade_achieved" =
    ["perc", "astar", "grade", "achieved"] := by decide

example : absName "perc_astar_a_grade_achieved" = "abs_astar_a_grade_achieved" := by
  decide

example : absName "perc_astar_grade_achieved" = "abs_astar_grade_grade_achieved" := by
  decide

example : str_to_int "2021" = some 2021 := by decide

example : bandList.map percName = percentage_columns := by decide

/-! ### Properties of the group-key construction -/

theorem mem_insertYear (y z : Int) :
    ∀ l : List Int, z ∈ insertYear y l ↔ z = y ∨ z ∈ l
  | [] => by simp [insertYear]
  | x :: xs => by
    by_cases h1 : y < x
    · simp only [insertYear, h1, if_true, List.mem_cons]
    · by_cases h2 : x < y
      · simp only [insertYear, h1, if_false, h2, if_true, List.mem_cons,
          mem_insertYear y z xs]
        tauto
      · have hxy : x = y := by omega
        subst hxy
        simp only [insertYear, h1, if_false, h2, List.mem_cons]
        tauto

theorem head?_insertYear (y : Int) :
    ∀ l : List Int, (insertYear y l).head? = some y ∨ (insertYear y l).head? = l.head?
  | [] => Or.inl rfl
  | x :: xs => by
    by_cases h1 : y < x
    · left
      simp [insertYear, h1]
    · by_cases h2 : x < y
      · right
        simp [insertYear, h1, h2]
      · right
        simp [insertYear, h1, h2]

theorem chain'_insertYear (y : Int) :
    ∀ l : List Int, List.Chain' (· < ·) l → List.Chain' (· < ·) (insertYear y l)
  | [], _ => by simp [insertYear]
  | x :: xs, h => by
    by_cases h1 : y < x
    · simp only [insertYear, h1, if_true]
      exact List.chain'_cons.mpr ⟨h1, h⟩
    · by_cases h2 : x < y
      · have ih := chain'_insertYear y xs h.tail
        simp only [insertYear, h1, if_false, h2, if_true]
        rw [List.chain'_cons']
        refine ⟨?_, ih⟩
        intro b hb
        rcases head?_insertYear y xs with he | he
        · rw [he] at hb
          simp at hb
          subst hb
          exact h2
        · rw [he] at hb
          cases xs with
          | nil => simp at hb
          | cons x' xs' =>
            simp at hb
            subst hb
            exact (List.chain'_cons.mp h).1
      · have hxy : x = y := by omega
        subst hxy
        simpa [insertYear, h1, h2] using h

theorem mem_groupKeys (z : Int) : ∀ l : List Int, z ∈ groupKeys l ↔ z ∈ l
  | [] => by simp [groupKeys]
  | x :: xs => by
    have hstep : groupKeys (x :: xs) = insertYear x (groupKeys xs) := rfl
    rw [hstep, mem_insertYear, mem_groupKeys z xs]
    simp [List.mem_cons]

theorem chain'_groupKeys : ∀ l : List Int, List.Chain' (· < ·) (groupKeys l)
  | [] => by simp [groupKeys]
  | x :: xs => chain'_insertYear x (groupKeys xs) (chain'_groupKeys xs)

/-! ### Properties of the shared filter -/

theorem mem_filtered_df {rows : List PrepRow} {s e : Int} {ch : String}
    {subj : List String} {r : PrepRow} :
    r ∈ filtered_df rows s e ch subj ↔
      r ∈ rows ∧ s ≤ r.start_year ∧ r.start_year ≤ e ∧
        r.characteristic_value = ch ∧ r.subject_name ∈ subj := by
  simp [filtered_df, List.mem_filter, and_assoc]

theorem filtered_df_eq_nil {rows : List PrepRow} {s e : Int} {ch : String}
    {subj : List String} (h : subj = [] ∨ e < s) :
    filtered_df rows s e ch subj = [] := by
  rw [List.eq_nil_iff_forall_not_mem]
  intro r hr
  rw [mem_filtered_df] at hr
  rcases h with h | h
  · subst h
    exact absurd hr.2.2.2.2 (List.not_mem_nil _)
  · omega

/-! ### The claims -/

/-- C7: for every prepared row, `start_year` is the integer parse of the
first four characters of `time_period`, and `formatted_time_period` is the
first four characters, a `'/'`, then the remaining characters. -/
theorem C7_time_period_fields (r : RawRow) (p : PrepRow)
    (h : prepareRow r = some p) :
    str_to_int (p.time_period.take 4) = some p.start_year ∧
    p.formatted_time_period = p.time_period.take 4 ++ "/" ++ p.time_period.drop 4 := by
  unfold prepareRow at h
  cases heq : str_to_int (r.time_period.take 4) with
  | none =>
    rw [heq] at h
    exact absurd h (by simp)
  | some sy =>
    rw [heq] at h
    simp only [Option.some.injEq] at h
    subst h
    exact ⟨heq, rfl⟩

/-- Witness for C7, at the concrete raw row `exRaw`. -/
theorem C7_witness :
    str_to_int (exPrep.time_period.take 4) = some exPrep.start_year ∧
    exPrep.formatted_time_period =
      exPrep.time_period.take 4 ++ "/" ++ exPrep.time_period.drop 4 :=
  C7_time_period_fields exRaw exPrep rfl

/-- C1: for every prepared row and every grade band, the derived absolute
field equals `perc / 100 * entry_count` whenever the percentage is present
(the `Option.map` form), and the absolute field is missing iff the
percentage is missing. -/
theorem C1_abs_from_perc (r : RawRow) (p : PrepRow)
    (h : prepareRow r = some p) (b : Band) :
    p.abs b = (p.perc b).map (fun q => q / 100 * (p.entry_count : Rat)) ∧
    (p.abs b = none ↔ p.perc b = none) := by
  unfold prepareRow at h
  cases heq : str_to_int (r.time_period.take 4) with
  | none =>
    rw [heq] at h
    exact absurd h (by simp)
  | some sy =>
    rw [heq] at h
    simp only [Option.some.injEq] at h
    subst h
    refine ⟨rfl, ?_⟩
    cases hcell : r.percRaw b with
    | num q => simp [to_numeric, hcell]
    | nonNumeric => simp [to_numeric, hcell]

/-- Witness for C1, at the concrete raw row `exRaw` and band A*. -/
theorem C1_witness :
    exPrep.abs Band.astar =
      (exPrep.perc Band.astar).map (fun q => q / 100 * (exPrep.entry_count : Rat)) ∧
    (exPrep.abs Band.astar = none ↔ exPrep.perc Band.astar = none) :=
  C1_abs_from_perc exRaw exPrep rfl Band.astar

/-- C2: each cell of the summary table is the arithmetic mean, over the
filtered rows sharing the cell's start year, of the selected indicator
column, missing values ignored; on the specification's example data the
`entry_count` row is [100, 120, 110] and the `perc_astar_grade_achieved`
row is [10, 12, 11], keyed by the year columns "2019", "2020", "2021". -/
theorem C2_summary_cells :
    (∀ (rows : List PrepRow) (s e : Int) (mode ch : String)
        (subj : List String) (i : Nat) (c : Col),
        (allColumns mode).get? i = some c →
        (update_table rows s e mode ch subj).records.get? i =
          some (colName c,
            (groupKeys ((filtered_df rows s e ch subj).map (fun r => r.start_year))).map
              (fun y =>
                meanOpt
                  (((filtered_df rows s e ch subj).filter
                      (fun r => decide (r.start_year = y))).map
                    (fun r => colVal r c))))) ∧
    exampleTable.colNames = ["Indicator", "2019", "2020", "2021"] ∧
    exampleTable.records.get? 0 =
      some ("entry_count", [some 100, some 120, some 110]) ∧
    exampleTable.records.get? 1 =
      some ("perc_astar_grade_achieved", [some 10, some 12, some 11]) := by
  have e1 : exampleRows.filter (fun r => decide (r.start_year = 2019)) =
      [mkExRow "201920" 2019 100 10] := rfl
  have e2 : exampleRows.filter (fun r => decide (r.start_year = 2020)) =
      [mkExRow "202021" 2020 120 12] := rfl
  have e3 : exampleRows.filter (fun r => decide (r.start_year = 2021)) =
      [mkExRow "202122" 2021 110 11] := rfl
  have c19 : cellValue exampleRows Col.entry 2019 = some 100 := by
    norm_num [cellValue, e1, meanOpt, colVal, mkExRow,
      List.filterMap_cons, List.filterMap_nil]
  have c20 : cellValue exampleRows Col.entry 2020 = some 120 := by
    norm_num [cellValue, e2, meanOpt, colVal, mkExRow,
      List.filterMap_cons, List.filterMap_nil]
  have c21 : cellValue exampleRows Col.entry 2021 = some 110 := by
    norm_num [cellValue, e3, meanOpt, colVal, mkExRow,
      List.filterMap_cons, List.filterMap_nil]
  have p19 : cellValue exampleRows (Col.percCol Band.astar) 2019 = some 10 := by
    norm_num [cellValue, e1, meanOpt, colVal, mkExRow,
      List.filterMap_cons, List.filterMap_nil]
  have p20 : cellValue exampleRows (Col.percCol Band.astar) 2020 = some 12 := by
    norm_num [cellValue, e2, meanOpt, colVal, mkExRow,
      List.filterMap_cons, List.filterMap_nil]
  have p21 : cellValue exampleRows (Col.percCol Band.astar) 2021 = some 11 := by
    norm_num [cellValue, e3, meanOpt, colVal, mkExRow,
      List.filterMap_cons, List.filterMap_nil]
  refine ⟨?_, ?_, ?_, ?_⟩
  · intro rows s e mode ch subj i c hc
    show ((allColumns mode).map (fun c => (colName c,
        (groupKeys ((filtered_df rows s e ch subj).map (fun r => r.start_year))).map
          (fun y => cellValue (filtered_df rows s e ch subj) c y)))).get? i = _
    rw [List.get?_map, hc]
    rfl
  · rfl
  · show some ("entry_count",
        [cellValue exampleRows Col.entry 2019, cellValue exampleRows Col.entry 2020,
         cellValue exampleRows Col.entry 2021]) = _
    rw [c19, c20, c21]
  · show some ("perc_astar_grade_achieved",
        [cellValue exampleRows (Col.percCol Band.astar) 2019,
         cellValue exampleRows (Col.percCol Band.astar) 2020,
         cellValue exampleRows (Col.percCol Band.astar) 2021]) = _
    rw [p19, p20, p21]

/-- Witness for C2: the general cell description applied at the example
table, index 0 (the entry_count record). -/
theorem C2_witness :
    (update_table exampleRows 2019 2021 "percentage" "All Students"
        ["Mathematics"]).records.get? 0 =
      some (colName Col.entry,
        (groupKeys
            ((filtered_df exampleRows 2019 2021 "All Students" ["Mathematics"]).map
              (fun r => r.start_year))).map
          (fun y =>
            meanOpt
              (((filtered_df exampleRows 2019 2021 "All Students"
                    ["Mathematics"]).filter
                  (fun r => decide (r.start_year = y))).map
                (fun r => colVal r Col.entry)))) :=
  C2_summary_cells.1 exampleRows 2019 2021 "percentage" "All Students"
    ["Mathematics"] 0 Col.entry rfl

/-- The indicator names of the summary-table records are the names of the
selected columns, in order. -/
theorem records_map_fst (rows : List PrepRow) (s e : Int)
    (mode ch : String) (subj : List String) :
    (update_table rows s e mode ch subj).records.map Prod.fst =
      (allColumns mode).map colName := by
  have h : (update_table rows s e mode ch subj).records =
      (allColumns mode).map (fun c => (colName c,
        (groupKeys ((filtered_df rows s e ch subj).map (fun r => r.start_year))).map
          (fun y => cellValue (filtered_df rows s e ch subj) c y))) := rfl
  rw [h, List.map_map]
  rfl

/-- The selected column names: `entry_count`, then the six percentage names
in percentage mode, else the six derived absolute names. -/
theorem allColumns_names (mode : String) :
    (allColumns mode).map colName =
      "entry_count" ::
        (if mode = "percentage" then percentage_columns
         else percentage_columns.map absName) := by
  by_cases hm : mode = "percentage"
  · simp only [allColumns, hm, if_true]
    decide
  · simp only [allColumns, hm, if_false]
    decide

/-- C4: with an empty subject list or a start year after the end year, the
summary table has no year columns (only the indicator rows with no data)
and every line-chart series has no points; with an empty subject list the
chart has no series at all. Both operations are total functions of their
inputs, so no parameter value raises. -/
theorem C4_degenerate_inputs (rows : List PrepRow) (s e : Int)
    (mode ch : String) (subj : List String) (h : subj = [] ∨ e < s) :
    (update_table rows s e mode ch subj).colNames = ["Indicator"] ∧
    (update_table rows s e mode ch subj).records =
      (allColumns mode).map (fun c => (colName c, ([] : List (Option Rat)))) ∧
    (∀ tr ∈ (update_line_chart rows s e (SubjectsParam.multi subj) ch).data,
      tr.x = [] ∧ tr.y = []) ∧
    (subj = [] →
      (update_line_chart rows s e (SubjectsParam.multi subj) ch).data = []) := by
  have hnil : filtered_df rows s e ch subj = [] := filtered_df_eq_nil h
  have hdata : (update_line_chart rows s e (SubjectsParam.multi subj) ch).data =
      subj.map (fun subject =>
        subjectTrace (filtered_df rows s e ch subj) ch subject) := rfl
  refine ⟨?_, ?_, ?_, ?_⟩
  · simp [update_table, hnil, groupKeys]
  · simp [update_table, hnil, groupKeys]
  · intro tr htr
    rw [hdata, hnil, List.mem_map] at htr
    obtain ⟨subject, _, rfl⟩ := htr
    exact ⟨rfl, rfl⟩
  · intro hsub
    subst hsub
    rfl

/-- Witness for C4, at the empty subject list. -/
theorem C4_witness :
    (update_table exampleRows 2019 2021 "percentage" "All Students"
        []).colNames = ["Indicator"] ∧
    (update_table exampleRows 2019 2021 "percentage" "All Students" []).records =
      (allColumns "percentage").map
        (fun c => (colName c, ([] : List (Option Rat)))) ∧
    (∀ tr ∈ (update_line_chart exampleRows 2019 2021 (SubjectsParam.multi [])
        "All Students").data, tr.x = [] ∧ tr.y = []) ∧
    (([] : List String) = [] →
      (update_line_chart exampleRows 2019 2021 (SubjectsParam.multi [])
        "All Students").data = []) :=
  C4_degenerate_inputs exampleRows 2019 2021 "percentage" "All Students" []
    (Or.inl rfl)

/-- C5: every year column of the summary table is the rendering of a year in
the closed range [start_date, end_date]. -/
theorem C5_year_columns_in_range (rows : List PrepRow) (s e : Int)
    (mode ch : String) (subj : List String) (nm : String)
    (h : nm ∈ (update_table rows s e mode ch subj).colNames.tail) :
    ∃ y : Int, nm = toString y ∧ s ≤ y ∧ y ≤ e := by
  have htail : (update_table rows s e mode ch subj).colNames.tail =
      (groupKeys ((filtered_df rows s e ch subj).map (fun r => r.start_year))).map
        (fun y => toString y) := rfl
  rw [htail, List.mem_map] at h
  obtain ⟨y, hy, rfl⟩ := h
  rw [mem_groupKeys, List.mem_map] at hy
  obtain ⟨r, hr, rfl⟩ := hy
  rw [mem_filtered_df] at hr
  exact ⟨r.start_year, rfl, hr.2.1, hr.2.2.1⟩

/-- Witness for C5, at the example table and its year column "2019". -/
theorem C5_witness :
    ∃ y : Int, "2019" = toString y ∧ (2019 : Int) ≤ y ∧ y ≤ 2021 :=
  C5_year_columns_in_range exampleRows 2019 2021 "percentage" "All Students"
    ["Mathematics"] "2019" (by decide)

/-- C6: the summary-table column names are the string "Indicator" followed
by the years rendered as strings, and the indicator rows appear in the
fixed order entry_count, then the six grade bands A*, A*-A, ..., A*-E. -/
theorem C6_output_shape (rows : List PrepRow) (s e : Int)
    (mode ch : String) (subj : List String) :
    (update_table rows s e mode ch subj).colNames =
      "Indicator" ::
        (groupKeys ((filtered_df rows s e ch subj).map (fun r => r.start_year))).map
          (fun y => toString y) ∧
    (update_table rows s e mode ch subj).records.map Prod.fst =
      "entry_count" ::
        (if mode = "percentage" then percentage_columns
         else percentage_columns.map absName) := by
  refine ⟨rfl, ?_⟩
  rw [records_map_fst, allColumns_names]

/-- Witness for C6 (unconditional, but instantiated at the example data). -/
theorem C6_witness :
    (update_table exampleRows 2019 2021 "percentage" "All Students"
        ["Mathematics"]).colNames =
      "Indicator" ::
        (groupKeys ((filtered_df exampleRows 2019 2021 "All Students"
            ["Mathematics"]).map (fun r => r.start_year))).map
          (fun y => toString y) ∧
    (update_table exampleRows 2019 2021 "percentage" "All Students"
        ["Mathematics"]).records.map Prod.fst =
      "entry_count" ::
        (if "percentage" = "percentage" then percentage_columns
         else percentage_columns.map absName) :=
  C6_output_shape exampleRows 2019 2021 "percentage" "All Students"
    ["Mathematics"]

/-- C8: on the same filter, percentage mode and absolute mode return the
same year columns and the identical entry_count record, and their other
records are the six percentage columns versus the six derived absolute
columns. -/
theorem C8_mode_comparison (rows : List PrepRow) (s e : Int) (ch : String)
    (subj : List String) :
    (update_table rows s e "percentage" ch subj).colNames =
      (update_table rows s e "absolute" ch subj).colNames ∧
    (update_table rows s e "percentage" ch subj).records.get? 0 =
      (update_table rows s e "absolute" ch subj).records.get? 0 ∧
    (update_table rows s e "percentage" ch subj).records.map Prod.fst =
      "entry_count" :: percentage_columns ∧
    (update_table rows s e "absolute" ch subj).records.map Prod.fst =
      "entry_count" :: percentage_columns.map absName := by
  refine ⟨rfl, rfl, ?_, ?_⟩
  · rw [records_map_fst, allColumns_names]
    decide
  · rw [records_map_fst, allColumns_names]
    decide

/-- C3: the i-th series of the line chart is the trace of the i-th selected
subject: its label is "{subject} ({characteristic})", its x values are
exactly the distinct start years of the filtered rows of that subject in
strictly ascending order, its y values are the per-year sums of
`entry_count` over those rows, and every such sum is non-negative. -/
theorem C3_time_series (rows : List PrepRow) (s e : Int)
    (subjects : List String) (ch : String) (i : Nat) (subj : String)
    (h : subjects.get? i = some subj) :
    (update_line_chart rows s e (SubjectsParam.multi subjects) ch).data.get? i =
      some (subjectTrace (filtered_df rows s e ch subjects) ch subj) ∧
    (subjectTrace (filtered_df rows s e ch subjects) ch subj).name =
      subj ++ " (" ++ ch ++ ")" ∧
    (∀ y : Int,
      y ∈ (subjectTrace (filtered_df rows s e ch subjects) ch subj).x ↔
        ∃ r ∈ subject_df (filtered_df rows s e ch subjects) subj,
          r.start_year = y) ∧
    List.Chain' (· < ·)
      (subjectTrace (filtered_df rows s e ch subjects) ch subj).x ∧
    (subjectTrace (filtered_df rows s e ch subjects) ch subj).y =
      (subjectTrace (filtered_df rows s e ch subjects) ch subj).x.map
        (fun y =>
          (((subject_df (filtered_df rows s e ch subjects) subj).filter
              (fun r => decide (r.start_year = y))).map
            (fun r => r.entry_count)).sum) ∧
    (∀ v ∈ (subjectTrace (filtered_df rows s e ch subjects) ch subj).y,
      0 ≤ (v : Int)) := by
  refine ⟨?_, rfl, ?_, ?_, rfl, ?_⟩
  · show (subjects.map
        (fun subject =>
          subjectTrace (filtered_df rows s e ch subjects) ch subject)).get? i = _
    rw [List.get?_map, h]
    rfl
  · intro y
    show y ∈ groupKeys
        ((subject_df (filtered_df rows s e ch subjects) subj).map
          (fun r => r.start_year)) ↔ _
    rw [mem_groupKeys, List.mem_map]
  · exact chain'_groupKeys _
  · intro v _
    exact Int.ofNat_nonneg v

/-- Witness for C3, at the example dataset and subject list ["Mathematics"]. -/
theorem C3_witness :
    (update_line_chart exampleRows 2019 2021
        (SubjectsParam.multi ["Mathematics"]) "All Students").data.get? 0 =
      some (subjectTrace
        (filtered_df exampleRows 2019 2021 "All Students" ["Mathematics"])
        "All Students" "Mathematics") ∧
    (subjectTrace (filtered_df exampleRows 2019 2021 "All Students"
        ["Mathematics"]) "All Students" "Mathematics").name =
      "Mathematics" ++ " (" ++ "All Students" ++ ")" ∧
    (∀ y : Int,
      y ∈ (subjectTrace (filtered_df exampleRows 2019 2021 "All Students"
          ["Mathematics"]) "All Students" "Mathematics").x ↔
        ∃ r ∈ subject_df (filtered_df exampleRows 2019 2021 "All Students"
            ["Mathematics"]) "Mathematics", r.start_year = y) ∧
    List.Chain' (· < ·)
      (subjectTrace (filtered_df exampleRows 2019 2021 "All Students"
        ["Mathematics"]) "All Students" "Mathematics").x ∧
    (subjectTrace (filtered_df exampleRows 2019 2021 "All Students"
        ["Mathematics"]) "All Students" "Mathematics").y =
      (subjectTrace (filtered_df exampleRows 2019 2021 "All Students"
          ["Mathematics"]) "All Students" "Mathematics").x.map
        (fun y =>
          (((subject_df (filtered_df exampleRows 2019 2021 "All Students"
                ["Mathematics"]) "Mathematics").filter
              (fun r => decide (r.start_year = y))).map
            (fun r => r.entry_count)).sum) ∧
    (∀ v ∈ (subjectTrace (filtered_df exampleRows 2019 2021 "All Students"
        ["Mathematics"]) "All Students" "Mathematics").y, 0 ≤ (v : Int)) :=
  C3_time_series exampleRows 2019 2021 ["Mathematics"] "All Students" 0
    "Mathematics" rfl

/-- C9: the line chart has exactly one series per element of the subject
list, in list order; a subject with no matching rows still gets a series,
with no points; an empty subject list yields no series. -/
theorem C9_one_series_per_subject (rows : List PrepRow) (s e : Int)
    (subjects : List String) (ch : String) :
    (update_line_chart rows s e (SubjectsParam.multi subjects) ch).data.length =
      subjects.length ∧
    (∀ (i : Nat) (subj : String), subjects.get? i = some subj →
      (update_line_chart rows s e (SubjectsParam.multi subjects) ch).data.get? i =
        some (subjectTrace (filtered_df rows s e ch subjects) ch subj) ∧
      ((∀ r ∈ filtered_df rows s e ch subjects, r.subject_name ≠ subj) →
        (update_line_chart rows s e
            (SubjectsParam.multi subjects) ch).data.get? i =
          some { x := [], y := [], name := subj ++ " (" ++ ch ++ ")" })) ∧
    (subjects = [] →
      (update_line_chart rows s e (SubjectsParam.multi subjects) ch).data = []) := by
  have hdata : (update_line_chart rows s e (SubjectsParam.multi subjects) ch).data =
      subjects.map (fun subject =>
        subjectTrace (filtered_df rows s e ch subjects) ch subject) := rfl
  refine ⟨?_, ?_, ?_⟩
  · rw [hdata, List.length_map]
  · intro i subj h
    constructor
    · rw [hdata, List.get?_map, h]
      rfl
    · intro hnone
      have hsdf : subject_df (filtered_df rows s e ch subjects) subj = [] := by
        rw [List.eq_nil_iff_forall_not_mem]
        intro r hr
        rw [subject_df, List.mem_filter] at hr
        exact hnone r hr.1 (by simpa using hr.2)
      rw [hdata, List.get?_map, h]
      simp [subjectTrace, hsdf, groupKeys]
  · intro hsub
    subst hsub
    rfl

/-- Witness for C9, at a subject list whose subject has no matching rows. -/
theorem C9_witness :
    (update_line_chart exampleRows 2019 2021 (SubjectsParam.multi ["Physics"])
        "All Students").data.length = (["Physics"] : List String).length ∧
    (update_line_chart exampleRows 2019 2021 (SubjectsParam.multi ["Physics"])
        "All Students").data.get? 0 =
      some { x := [], y := [],
             name := "Physics" ++ " (" ++ "All Students" ++ ")" } := by
  have h := C9_one_series_per_subject exampleRows 2019 2021 ["Physics"]
    "All Students"
  refine ⟨h.1, (h.2.1 0 "Physics" rfl).2 ?_⟩
  intro r hr
  rw [show filtered_df exampleRows 2019 2021 "All Students" ["Physics"] =
    [] from rfl] at hr
  exact absurd hr (List.not_mem_nil r)

/-- C10: a scalar subjects argument produces exactly the same figure as the
singleton list of that subject. -/
theorem C10_scalar_subjects (rows : List PrepRow) (s e : Int)
    (subj ch : String) :
    update_line_chart rows s e (SubjectsParam.single subj) ch =
      update_line_chart rows s e (SubjectsParam.multi [subj]) ch := rfl
